import Mathlib

/-!
Verification of the gig-log credential and session lifecycle subsystem.

The Rust API (src/api) is shallowly embedded: strings are byte lists,
timestamps are epoch seconds (Nat), database rows are records in explicit
lists, and each HTTP handler is a pure function from the request data,
an environment, an oracle of non-deterministic inputs (clock, generated
codes, jti values, external-crate failures) and a database state to a
typed result together with the resulting database state and the list of
e-mail send calls performed.

External crates (sha2, argon2, jsonwebtoken) and the one repository
function whose definition is not in the sources
(AuthRepo.consume_active_refresh_token) are modelled from the
specification of their required properties; each such definition carries
a doc comment saying so.
-/

namespace GigLog

/-- Byte strings: Rust `&str`/`String` values are modelled as their byte
sequences, each byte a `Nat` below 256. -/
abbrev Bytes := List Nat

/-- All elements of the list are actual bytes (below 256). -/
def ValidBytes (bs : Bytes) : Prop := ∀ b ∈ bs, b < 256

instance (bs : Bytes) : Decidable (ValidBytes bs) := by
  unfold ValidBytes; infer_instance

/-- Byte sequence of a Lean string literal (used only for ASCII message
constants taken verbatim from the handlers). -/
def strBytes (s : String) : Bytes := s.data.map Char.toNat

/-- One hex digit, lowercase, as its ASCII byte (mirrors the `hex` crate's
alphabet). -/
def hexDigit (n : Nat) : Nat := if n < 10 then 48 + n else 87 + n

/-- Hex encoding of a byte sequence: two lowercase hex digits per byte,
high nibble first (the `hex::encode` convention). -/
def hexEncode : Bytes → Bytes
  | [] => []
  | b :: bs => hexDigit (b / 16) :: hexDigit (b % 16) :: hexEncode bs

/-- Modelled from the spec: the SHA-256 digest comes from the external
`sha2` crate, which is not part of this repository. Spec 4.1 requires a
deterministic, one-way, collision-resistant hash with hex-encoded output;
the idealised model used here is the injective-on-bytes hex rendering of
the input, which has exactly the determinism and collision-freeness the
spec postulates. -/
def sha256_hex (bs : Bytes) : Bytes := hexEncode bs

/-- src/api/src/auth/codes.rs `hash_code`: SHA-256 over the code bytes,
hex encoded. -/
def hash_code (code : Bytes) : Bytes := sha256_hex code

/-- src/api/src/auth/codes.rs `constant_time_compare`: length check, then
an XOR-accumulate loop over the zipped bytes. -/
def constant_time_compare (a b : Bytes) : Bool :=
  if a.length != b.length then false
  else (List.foldl (fun r p => r ||| (p.1 ^^^ p.2)) 0 (a.zip b)) == 0

/-- src/api/src/auth/codes.rs `verify_code`: rehash the presented code and
compare with the stored digest in constant time. -/
def verify_code (code : Bytes) (stored : Bytes) : Bool :=
  constant_time_compare (hash_code code) stored

/-- Bitwise or of naturals is zero exactly when both sides are zero. -/
theorem lor_eq_zero_iff (m n : Nat) : m ||| n = 0 ↔ m = 0 ∧ n = 0 := by
  constructor
  · intro h
    constructor
    · apply Nat.eq_of_testBit_eq
      intro k
      have hk := congrArg (fun x => Nat.testBit x k) h
      simp [Nat.testBit_lor] at hk
      simp [hk.1]
    · apply Nat.eq_of_testBit_eq
      intro k
      have hk := congrArg (fun x => Nat.testBit x k) h
      simp [Nat.testBit_lor] at hk
      simp [hk.2]
  · rintro ⟨rfl, rfl⟩
    rfl

/-- The XOR-accumulate loop ends at zero exactly when it started at zero
and every zipped pair of bytes is equal. -/
theorem foldl_lor_xor_eq_zero (l : List (Nat × Nat)) (acc : Nat) :
    List.foldl (fun r p => r ||| (p.1 ^^^ p.2)) acc l = 0 ↔
      acc = 0 ∧ ∀ p ∈ l, p.1 = p.2 := by
  induction l generalizing acc with
  | nil => simp
  | cons p l ih =>
    simp only [List.foldl_cons, ih, lor_eq_zero_iff, Nat.xor_eq_zero, List.mem_cons]
    constructor
    · rintro ⟨⟨h1, h2⟩, h3⟩
      exact ⟨h1, fun q hq => hq.elim (fun hq => hq ▸ h2) (h3 q)⟩
    · rintro ⟨h1, h2⟩
      exact ⟨⟨h1, h2 p (Or.inl rfl)⟩, fun q hq => h2 q (Or.inr hq)⟩

/-- Lists of equal length are equal exactly when every zipped pair is. -/
theorem zip_pairs_eq_iff (a : Bytes) : ∀ b : Bytes, a.length = b.length →
    ((∀ p ∈ a.zip b, p.1 = p.2) ↔ a = b) := by
  induction a with
  | nil => intro b hb; cases b <;> simp_all
  | cons x a ih =>
    intro b hb
    cases b with
    | nil => simp at hb
    | cons y b =>
      simp only [List.length_cons, Nat.succ.injEq] at hb
      simp only [List.zip_cons_cons, List.mem_cons, List.cons.injEq]
      constructor
      · intro h
        refine ⟨h (x, y) (Or.inl rfl), ?_⟩
        exact (ih b hb).mp (fun p hp => h p (Or.inr hp))
      · rintro ⟨rfl, rfl⟩
        intro p hp
        rcases hp with h | h
        · rw [h]
        · exact ((ih a rfl).mpr rfl) p h

/-- The constant-time comparator decides byte-string equality. -/
theorem constant_time_compare_eq_true_iff (a b : Bytes) :
    constant_time_compare a b = true ↔ a = b := by
  unfold constant_time_compare
  by_cases h : a.length = b.length
  · simp only [h, bne_self_eq_false, Bool.false_eq_true, if_false, beq_iff_eq]
    rw [foldl_lor_xor_eq_zero]
    constructor
    · rintro ⟨_, h2⟩
      exact (zip_pairs_eq_iff a b h).mp h2
    · intro he
      exact ⟨rfl, (zip_pairs_eq_iff a b h).mpr he⟩
  · have : (a.length != b.length) = true := by simpa [bne_iff_ne] using h
    simp only [this, if_true]
    constructor
    · intro hc; cases hc
    · intro hc; exact absurd (congrArg List.length hc) h

/-- Hex digits are injective on nibbles. -/
theorem hexDigit_inj (m n : Nat) (hm : m < 16) (hn : n < 16)
    (h : hexDigit m = hexDigit n) : m = n := by
  unfold hexDigit at h
  split at h <;> split at h <;> omega

/-- Hex encoding is injective on genuine byte sequences. -/
theorem hexEncode_inj (a : Bytes) : ∀ b : Bytes, ValidBytes a → ValidBytes b →
    hexEncode a = hexEncode b → a = b := by
  induction a with
  | nil => intro b _ _ h; cases b with
    | nil => rfl
    | cons y b => simp [hexEncode] at h
  | cons x a ih =>
    intro b ha hb h
    cases b with
    | nil => simp [hexEncode] at h
    | cons y b =>
      simp only [hexEncode, List.cons.injEq] at h
      have hx : x < 256 := ha x (List.mem_cons_self x a)
      have hy : y < 256 := hb y (List.mem_cons_self y b)
      have h1 : x / 16 = y / 16 :=
        hexDigit_inj _ _ (by omega) (by omega) h.1
      have h2 : x % 16 = y % 16 :=
        hexDigit_inj _ _ (by omega) (by omega) h.2.1
      have hxy : x = y := by omega
      have hrest : a = b := by
        refine ih b ?_ ?_ h.2.2
        · exact fun c hc => ha c (List.mem_cons_of_mem x hc)
        · exact fun c hc => hb c (List.mem_cons_of_mem y hc)
      rw [hxy, hrest]

/-- C8. For every code, verifying a code against its own stored hash
succeeds, and (in the idealised collision-free model of SHA-256 demanded
by the spec) verifying any distinct code against that hash fails. -/
theorem code_hash_verify_correct :
    (∀ code : Bytes, verify_code code (hash_code code) = true) ∧
    (∀ code code2 : Bytes, ValidBytes code → ValidBytes code2 → code ≠ code2 →
      verify_code code2 (hash_code code) = false) := by
  constructor
  · intro code
    exact (constant_time_compare_eq_true_iff _ _).mpr rfl
  · intro code code2 hc hc2 hne
    cases hcmp : constant_time_compare (hash_code code2) (hash_code code) with
    | false => exact hcmp
    | true =>
      have heq := (constant_time_compare_eq_true_iff _ _).mp hcmp
      have : code2 = code := hexEncode_inj code2 code hc2 hc heq
      exact absurd this.symm hne

/-- C8 witness: concrete six-digit codes 100000 and 100001. -/
theorem code_hash_verify_correct_witness :
    verify_code [49, 48, 48, 48, 48, 48] (hash_code [49, 48, 48, 48, 48, 48]) = true ∧
    verify_code [49, 48, 48, 48, 48, 49] (hash_code [49, 48, 48, 48, 48, 48]) = false :=
  ⟨code_hash_verify_correct.1 [49, 48, 48, 48, 48, 48],
   code_hash_verify_correct.2 [49, 48, 48, 48, 48, 48] [49, 48, 48, 48, 48, 49]
     (by decide) (by decide) (by decide)⟩

/-! ## Error taxonomy (core/error.rs `ApiError`; payload strings dropped) -/

/-- The typed error kinds of the API (spec section 7). The Rust
`InternalError(String)` payload is not modelled. -/
inductive ApiError where
  | Unauthorized
  | TokenInvalid
  | TokenExpired
  | InvalidCredentials
  | EmailAlreadyExists
  | EmailNotConfirmed
  | AuthCodeExpired
  | InvalidAuthCode
  | PasswordMismatch
  | InternalError
deriving DecidableEq, Repr

/-! ## TokenCodec (src/api/src/auth/jwt.rs) -/

/-- Claims of a short-lived access token (jwt.rs `AccessTokenClaims`). -/
structure AccessTokenClaims where
  sub : Bytes
  email : Bytes
  exp : Nat
  iat : Nat
  token_type : Bytes
deriving DecidableEq, Repr

/-- Claims of a long-lived refresh token (jwt.rs `RefreshTokenClaims`). -/
structure RefreshTokenClaims where
  sub : Bytes
  exp : Nat
  iat : Nat
  token_type : Bytes
  jti : Bytes
deriving DecidableEq, Repr

/-- The JSON payload a token serialises: the union of the two claim
shapes, with the fields present in only one of them made optional. -/
structure JwtPayload where
  sub : Bytes
  email : Option Bytes
  exp : Nat
  iat : Nat
  token_type : Bytes
  jti : Option Bytes
deriving DecidableEq, Repr

/-- Modelled from the spec: tokens are produced by the external
`jsonwebtoken` crate. Spec 4.3 and the glossary require a symmetric-key
MAC-signed, self-contained claims object; a signed token is modelled as
its payload together with the key it was signed with, and signature
verification as key equality. -/
structure Jwt where
  payload : JwtPayload
  key : Bytes
deriving DecidableEq, Repr

/-- Modelled from the spec: `jsonwebtoken::encode` with the default
header signs the serialised claims with the secret. -/
def jwtEncode (p : JwtPayload) (secret : Bytes) : Jwt := ⟨p, secret⟩

/-- Byte string of the access token type tag. -/
def accessType : Bytes := strBytes "access"

/-- Byte string of the refresh token type tag. -/
def refreshType : Bytes := strBytes "refresh"

/-- Decimal rendering of a numeric id; stands in for `Uuid::to_string`
(ids are modelled as numbers). -/
def natToBytes (n : Nat) : Bytes := (Nat.toDigits 10 n).map Char.toNat

namespace Jwt

/-- jwt.rs `create_access_token`: builds `AccessTokenClaims` with
`exp = now + expiry_seconds`, `iat = now`, `token_type = "access"` and
signs them. The external signer can fail; the oracle argument `signErr`
injects such a failure. -/
def create_access_token (user_id : Nat) (email : Bytes) (secret : Bytes)
    (expiry_seconds : Nat) (now : Nat) (signErr : Option ApiError) :
    Except ApiError Jwt :=
  match signErr with
  | some e => .error e
  | none => .ok (jwtEncode
      { sub := natToBytes user_id, email := some email,
        exp := now + expiry_seconds, iat := now,
        token_type := accessType, jti := none } secret)

/-- jwt.rs `create_refresh_token`: builds `RefreshTokenClaims` with a
fresh `jti` (supplied by the oracle), signs them, and returns the token
together with the raw `jti`. -/
def create_refresh_token (user_id : Nat) (secret : Bytes)
    (expiry_seconds : Nat) (now : Nat) (jti : Bytes)
    (signErr : Option ApiError) : Except ApiError (Jwt × Bytes) :=
  match signErr with
  | some e => .error e
  | none => .ok (jwtEncode
      { sub := natToBytes user_id, email := none,
        exp := now + expiry_seconds, iat := now,
        token_type := refreshType, jti := some jti } secret, jti)

/-- jwt.rs `decode_access_token`: signature check and claim
deserialisation (which needs the `email` field present) and expiry
validation by the jsonwebtoken crate, then the handwritten
`token_type == "access"` gate; decode failures surface as
`TokenInvalid`, expiry as `TokenExpired`. -/
def decode_access_token (t : Jwt) (secret : Bytes) (now : Nat) :
    Except ApiError AccessTokenClaims :=
  if t.key ≠ secret then .error .TokenInvalid
  else match t.payload.email with
    | none => .error .TokenInvalid
    | some e =>
      if t.payload.exp < now then .error .TokenExpired
      else if t.payload.token_type ≠ accessType then .error .TokenInvalid
      else .ok { sub := t.payload.sub, email := e, exp := t.payload.exp,
                 iat := t.payload.iat, token_type := t.payload.token_type }

/-- jwt.rs `decode_refresh_token`: as for access tokens but
deserialising `RefreshTokenClaims` (which needs the `jti` field) and
gating on `token_type == "refresh"`. -/
def decode_refresh_token (t : Jwt) (secret : Bytes) (now : Nat) :
    Except ApiError RefreshTokenClaims :=
  if t.key ≠ secret then .error .TokenInvalid
  else match t.payload.jti with
    | none => .error .TokenInvalid
    | some j =>
      if t.payload.exp < now then .error .TokenExpired
      else if t.payload.token_type ≠ refreshType then .error .TokenInvalid
      else .ok { sub := t.payload.sub, exp := t.payload.exp,
                 iat := t.payload.iat, token_type := t.payload.token_type,
                 jti := j }

end Jwt

/-- C7. Round trip: an access token issued for user `u`, email `e`,
secret `s` and positive ttl decodes under the same secret (at issuance
time) into claims with the same subject and email and the access type
tag. -/
theorem access_token_roundtrip (u : Nat) (e s : Bytes) (ttl now : Nat)
    (hpos : 0 < ttl) :
    ∃ tok, Jwt.create_access_token u e s ttl now none = .ok tok ∧
      ∃ c, Jwt.decode_access_token tok s now = .ok c ∧
        c.sub = natToBytes u ∧ c.email = e ∧ c.token_type = accessType := by
  refine ⟨_, rfl, ?_⟩
  unfold Jwt.decode_access_token jwtEncode
  have hexp : ¬ (now + ttl < now) := by omega
  simp [hexp]

/-- C7 witness: concrete round trip at user 7, ttl 900. -/
theorem access_token_roundtrip_witness :
    ∃ tok, Jwt.create_access_token 7 [97] [107] 900 0 none = .ok tok ∧
      ∃ c, Jwt.decode_access_token tok [107] 0 = .ok c ∧
        c.sub = natToBytes 7 ∧ c.email = [97] ∧ c.token_type = accessType :=
  access_token_roundtrip 7 [97] [107] 900 0 (by decide)

/-- C4. Token-kind confusion is rejected: a well-signed, unexpired
refresh token fails access decoding with `TokenInvalid`, and a
well-signed, unexpired access token fails refresh decoding with
`TokenInvalid`. -/
theorem token_type_confusion_rejected (u : Nat) (e s jti : Bytes)
    (ttl now now2 : Nat) (_hunexp : now2 ≤ now + ttl) :
    ∃ rt j tok,
      Jwt.create_refresh_token u s ttl now jti none = .ok (rt, j) ∧
      Jwt.decode_access_token rt s now2 = .error .TokenInvalid ∧
      Jwt.create_access_token u e s ttl now none = .ok tok ∧
      Jwt.decode_refresh_token tok s now2 = .error .TokenInvalid := by
  refine ⟨_, _, _, rfl, ?_, rfl, ?_⟩
  · unfold Jwt.decode_access_token jwtEncode
    simp
  · unfold Jwt.decode_refresh_token jwtEncode
    simp

/-- C4 witness: concrete confusion check at user 7, ttl 900, decode one
second after issuance. -/
theorem token_type_confusion_rejected_witness :
    ∃ rt j tok,
      Jwt.create_refresh_token 7 [107] 900 0 [106] none = .ok (rt, j) ∧
      Jwt.decode_access_token rt [107] 1 = .error .TokenInvalid ∧
      Jwt.create_access_token 7 [97] [107] 900 0 none = .ok tok ∧
      Jwt.decode_refresh_token tok [107] 1 = .error .TokenInvalid :=
  token_type_confusion_rejected 7 [97] [107] [106] 900 0 1 (by decide)

/-! ## Data model (models/ and the persisted schema of spec section 6) -/

/-- models/auth_code.rs `AuthCodeType`. -/
inductive AuthCodeType where
  | EmailConfirmation
  | PasswordReset
deriving DecidableEq, Repr

/-- A row of the `users` table (the fields the auth subsystem touches). -/
structure UserRec where
  id : Nat
  first_name : Bytes
  last_name : Bytes
  email : Bytes
  hashed_password : Bytes
  email_confirmed : Bool
deriving DecidableEq, Repr

/-- A row of the `auth_codes` table (models/auth_code.rs `AuthCode`). -/
structure AuthCodeRec where
  id : Nat
  user_id : Nat
  code_hash : Bytes
  code_type : AuthCodeType
  expires_at : Nat
  used : Bool
  created_at : Nat
deriving DecidableEq, Repr

/-- A row of the `refresh_tokens` table. -/
structure RefreshTokenRec where
  user_id : Nat
  token_hash : Bytes
  expires_at : Nat
  revoked : Bool
deriving DecidableEq, Repr

/-- The relational state the auth subsystem reads and writes. -/
structure DB where
  users : List UserRec
  auth_codes : List AuthCodeRec
  refresh_tokens : List RefreshTokenRec
deriving DecidableEq, Repr

/-! ## SessionStore and user queries (src/api/src/repository/auth.rs) -/

namespace AuthRepo

/-- Shared body of the four `find_user_for_*` queries: `SELECT ... FROM
users WHERE email = $1` (they differ only in the columns selected, which
the embedding keeps whole). -/
def find_user_by_email (db : DB) (email : Bytes) : Option UserRec :=
  db.users.find? (fun u => u.email == email)

/-- repository/auth.rs `check_email_exists`. -/
def check_email_exists (db : DB) (email : Bytes) : Bool :=
  (find_user_by_email db email).isSome

/-- repository/auth.rs `find_user_for_login`. -/
def find_user_for_login (db : DB) (email : Bytes) : Option UserRec :=
  find_user_by_email db email

/-- repository/auth.rs `find_user_for_confirmation`. -/
def find_user_for_confirmation (db : DB) (email : Bytes) : Option UserRec :=
  find_user_by_email db email

/-- repository/auth.rs `find_user_for_password_reset`. -/
def find_user_for_password_reset (db : DB) (email : Bytes) : Option UserRec :=
  find_user_by_email db email

/-- repository/auth.rs `find_user_for_verification`. -/
def find_user_for_verification (db : DB) (email : Bytes) : Option UserRec :=
  find_user_by_email db email

/-- repository/auth.rs `find_user_by_id` (used by the auth middleware and
the set-password handler). -/
def find_user_by_id (db : DB) (user_id : Nat) : Option UserRec :=
  db.users.find? (fun u => u.id == user_id)

/-- repository/auth.rs `create_user`: INSERT with `email_confirmed =
false`, returning the fresh id (supplied by the oracle). -/
def create_user (db : DB) (first last email hashed : Bytes) (newId : Nat) :
    Nat × DB :=
  (newId, { db with users := db.users ++
    [{ id := newId, first_name := first, last_name := last, email := email,
       hashed_password := hashed, email_confirmed := false }] })

/-- repository/auth.rs `confirm_user_email`: `UPDATE users SET
email_confirmed = true WHERE id = $1`. -/
def confirm_user_email (db : DB) (user_id : Nat) : DB :=
  { db with users := db.users.map (fun u =>
      if u.id == user_id then { u with email_confirmed := true } else u) }

/-- repository/auth.rs `update_user_password`: `UPDATE users SET
hashed_password = $1 WHERE id = $2`. -/
def update_user_password (db : DB) (user_id : Nat) (hashed : Bytes) : DB :=
  { db with users := db.users.map (fun u =>
      if u.id == user_id then { u with hashed_password := hashed } else u) }

/-- repository/auth.rs `create_auth_code`: INSERT; `used` defaults to
false and `created_at` to NOW(). The fresh row id comes from the
oracle. -/
def create_auth_code (db : DB) (user_id : Nat) (code_hash : Bytes)
    (code_type : AuthCodeType) (expires_at : Nat) (newId : Nat) (now : Nat) :
    DB :=
  { db with auth_codes := db.auth_codes ++
    [{ id := newId, user_id := user_id, code_hash := code_hash,
       code_type := code_type, expires_at := expires_at, used := false,
       created_at := now }] }

/-- Validity filter of `find_valid_auth_code`: matching user and type,
unused, not yet expired. -/
def validCode (user_id : Nat) (ct : AuthCodeType) (now : Nat)
    (c : AuthCodeRec) : Bool :=
  c.user_id == user_id && c.code_type == ct && c.used == false
    && now < c.expires_at

/-- repository/auth.rs `find_valid_auth_code`: the valid row with the
greatest `created_at` (ORDER BY created_at DESC LIMIT 1; on equal
timestamps SQL leaves the choice open and the model keeps the earlier
row). -/
def find_valid_auth_code (db : DB) (user_id : Nat) (ct : AuthCodeType)
    (now : Nat) : Option AuthCodeRec :=
  (db.auth_codes.filter (validCode user_id ct now)).foldl
    (fun best c => match best with
      | none => some c
      | some b => if b.created_at < c.created_at then some c else some b)
    none

/-- repository/auth.rs `mark_auth_code_used`: `UPDATE auth_codes SET used
= true WHERE id = $1`, inside the caller's transaction. -/
def mark_auth_code_used (db : DB) (code_id : Nat) : DB :=
  { db with auth_codes := db.auth_codes.map (fun c =>
      if c.id == code_id then { c with used := true } else c) }

/-- repository/auth.rs `mark_auth_code_used_without_tx`: the same UPDATE
issued directly on the pool, outside any transaction. -/
def mark_auth_code_used_without_tx (db : DB) (code_id : Nat) : DB :=
  mark_auth_code_used db code_id

/-- repository/auth.rs `invalidate_password_reset_codes`: `UPDATE
auth_codes SET used = true WHERE user_id = $1 AND code_type =
'password_reset' AND used = false`. -/
def invalidate_password_reset_codes (db : DB) (user_id : Nat) : DB :=
  { db with auth_codes := db.auth_codes.map (fun c =>
      if c.user_id == user_id && c.code_type == AuthCodeType.PasswordReset
          && c.used == false
      then { c with used := true } else c) }

/-- repository/auth.rs `create_refresh_token`: INSERT; `revoked` defaults
to false. -/
def create_refresh_token (db : DB) (user_id : Nat) (token_hash : Bytes)
    (expires_at : Nat) : DB :=
  { db with refresh_tokens := db.refresh_tokens ++
    [{ user_id := user_id, token_hash := token_hash,
       expires_at := expires_at, revoked := false }] }

/-- repository/auth.rs `revoke_refresh_token`: `UPDATE refresh_tokens SET
revoked = true WHERE token_hash = $1` (best effort, no-match is not an
error). -/
def revoke_refresh_token (db : DB) (token_hash : Bytes) : DB :=
  { db with refresh_tokens := db.refresh_tokens.map (fun r =>
      if r.token_hash == token_hash then { r with revoked := true } else r) }

/-- repository/auth.rs `revoke_all_user_refresh_tokens`: `UPDATE
refresh_tokens SET revoked = true WHERE user_id = $1`. -/
def revoke_all_user_refresh_tokens (db : DB) (user_id : Nat) : DB :=
  { db with refresh_tokens := db.refresh_tokens.map (fun r =>
      if r.user_id == user_id then { r with revoked := true } else r) }

/-- Activity filter of `consume_active_refresh_token`: matching user and
hash, not revoked, not expired. -/
def activeMatch (user_id : Nat) (token_hash : Bytes) (now : Nat)
    (r : RefreshTokenRec) : Bool :=
  r.user_id == user_id && r.token_hash == token_hash
    && r.revoked == false && now < r.expires_at

/-- Modelled from the spec: `AuthRepo::consume_active_refresh_token` is
called from the set-password handler but its definition is not among the
sources. Spec 4.4 `consumeActive` atomically checks `(user_id = ?,
token_hash = ?, revoked = false, expires_at > now)` and, if matched,
marks the row revoked in the same atomic step (a single conditional
UPDATE), returning whether a row was actually transitioned. -/
def consume_active_refresh_token (db : DB) (user_id : Nat)
    (token_hash : Bytes) (now : Nat) : Bool × DB :=
  (db.refresh_tokens.any (activeMatch user_id token_hash now),
   { db with refresh_tokens := db.refresh_tokens.map (fun r =>
       if activeMatch user_id token_hash now r
       then { r with revoked := true } else r) })

end AuthRepo

/-- A conditional map whose condition holds nowhere in the list leaves
the list unchanged. -/
theorem map_ite_id {α : Type} (p : α → Bool) (f : α → α) (l : List α)
    (hl : ∀ x ∈ l, p x = false) :
    l.map (fun x => if p x then f x else x) = l := by
  induction l with
  | nil => rfl
  | cons x xs ih =>
    have hx := hl x (List.mem_cons_self x xs)
    simp [hx, ih (fun y hy => hl y (List.mem_cons_of_mem x hy))]

/-- C2. `consumeActive` returns true exactly when a matching active,
unexpired row exists; on true every such row is transitioned to revoked
in the same step; on false the state is untouched; and of two serialized
calls on the same initially-active session only the first returns
true. -/
theorem consume_active_refresh_token_spec (db : DB) (uid : Nat) (h : Bytes)
    (now : Nat) :
    ((AuthRepo.consume_active_refresh_token db uid h now).1 = true ↔
      ∃ r ∈ db.refresh_tokens, r.user_id = uid ∧ r.token_hash = h ∧
        r.revoked = false ∧ now < r.expires_at) ∧
    ((AuthRepo.consume_active_refresh_token db uid h now).1 = false →
      (AuthRepo.consume_active_refresh_token db uid h now).2 = db) ∧
    (∀ (i : Nat) (r : RefreshTokenRec), db.refresh_tokens[i]? = some r →
      r.user_id = uid →
      r.token_hash = h → r.revoked = false → now < r.expires_at →
      ∃ r2 : RefreshTokenRec,
        (AuthRepo.consume_active_refresh_token db uid h now).2.refresh_tokens[i]?
          = some r2 ∧ r2.revoked = true) ∧
    ((AuthRepo.consume_active_refresh_token db uid h now).1 = true →
      (AuthRepo.consume_active_refresh_token
        (AuthRepo.consume_active_refresh_token db uid h now).2 uid h now).1
        = false) := by
  refine ⟨?_, ?_, ?_, ?_⟩
  · simp [AuthRepo.consume_active_refresh_token, AuthRepo.activeMatch,
      List.any_eq_true, and_assoc]
  · intro hfalse
    have hall : ∀ r ∈ db.refresh_tokens,
        AuthRepo.activeMatch uid h now r = false := by
      simpa [AuthRepo.consume_active_refresh_token, List.any_eq_false]
        using hfalse
    simp only [AuthRepo.consume_active_refresh_token]
    rw [map_ite_id _ _ _ hall]
  · intro i r hget hu hh hrev hexp
    refine ⟨{ r with revoked := true }, ?_, rfl⟩
    simp only [AuthRepo.consume_active_refresh_token]
    rw [List.getElem?_map, hget]
    have hm : AuthRepo.activeMatch uid h now r = true := by
      simp [AuthRepo.activeMatch, hu, hh, hrev, hexp]
    simp [hm]
  · intro _
    simp only [AuthRepo.consume_active_refresh_token, List.any_map,
      List.any_eq_false, Function.comp_apply, Bool.not_eq_true]
    intro r _
    by_cases hm : AuthRepo.activeMatch uid h now r = true
    · simp only [hm, if_true]
      simp [AuthRepo.activeMatch]
    · have hm2 : AuthRepo.activeMatch uid h now r = false := by
        cases hq : AuthRepo.activeMatch uid h now r
        · rfl
        · exact absurd hq hm
      simp [hm2]

/-- Sample refresh-token row used by concrete witnesses: its stored hash
is the model hash of the jti byte string comprising the single byte
97. -/
def wRec : RefreshTokenRec :=
  { user_id := 1, token_hash := sha256_hex [97], expires_at := 100,
    revoked := false }

/-- Sample user row used by concrete witnesses. -/
def wUser : UserRec :=
  { id := 1, first_name := [102], last_name := [108], email := [101],
    hashed_password := [5, 36, 112], email_confirmed := true }

/-- Sample auth-code row used by concrete witnesses: the stored hash of
the code byte string comprising the single byte 55. -/
def wCode : AuthCodeRec :=
  { id := 9, user_id := 1, code_hash := hash_code [55],
    code_type := AuthCodeType.PasswordReset, expires_at := 100,
    used := false, created_at := 10 }

/-- Sample database used by concrete witnesses. -/
def wDb : DB :=
  { users := [wUser], auth_codes := [wCode], refresh_tokens := [wRec] }

/-- C2 witness: consuming the sample active session transitions the row
and a second serialized consume fails. -/
theorem consume_active_refresh_token_spec_witness :
    (∃ r2 : RefreshTokenRec,
      (AuthRepo.consume_active_refresh_token wDb 1 (sha256_hex [97])
        0).2.refresh_tokens[0]? = some r2 ∧ r2.revoked = true) ∧
    (AuthRepo.consume_active_refresh_token
      (AuthRepo.consume_active_refresh_token wDb 1 (sha256_hex [97]) 0).2 1
      (sha256_hex [97]) 0).1 = false :=
  ⟨(consume_active_refresh_token_spec wDb 1 (sha256_hex [97]) 0).2.2.1 0 wRec
      (by decide) (by decide) (by decide) (by decide) (by decide),
   (consume_active_refresh_token_spec wDb 1 (sha256_hex [97]) 0).2.2.2
      (by decide)⟩

/-! ## PasswordHasher (src/api/src/auth/password.rs) -/

/-- Splits a byte string at the first occurrence of a separator byte. -/
def splitAtByte : Bytes → Nat → Option (Bytes × Bytes)
  | [], _ => none
  | b :: rest, sep =>
    if b == sep then some ([], rest)
    else match splitAtByte rest sep with
      | none => none
      | some (pre, post) => some (b :: pre, post)

/-- Modelled from the spec: password hashing is done by the external
`argon2` crate. Spec 4.2 requires a salted one-way hash whose encoded
output self-describes its salt; memory-hardness is a cost property with
no functional content here. The model renders the encoded hash as the
salt, a separator byte 36, and the password. The per-call random salt is
supplied by the oracle. -/
def hash_password (password salt : Bytes) : Bytes := salt ++ 36 :: password

/-- password.rs `verify_password`: parse the encoded hash (a malformed
encoding is an internal error, never a panic), recompute with the parsed
salt and compare. -/
def verify_password (password encoded : Bytes) : Except ApiError Bool :=
  match splitAtByte encoded 36 with
  | none => .error .InternalError
  | some (salt, _) => .ok (hash_password password salt == encoded)

/-! ## AuthOrchestrator (src/api/src/routes/auth/handlers.rs) -/

/-- The environment values the handlers read (core/env.rs `Env`). -/
structure Env where
  jwt_secret : Bytes
  jwt_access_token_expiry_seconds : Nat
  jwt_refresh_token_expiry_seconds : Nat
  auth_code_expiry_seconds : Nat
deriving Repr

/-- Per-request non-deterministic inputs: the wall clock, the generated
six-digit code, fresh row ids, the fresh `jti`, the Argon2 salt, and
injected failures of the external token signer. -/
structure Oracle where
  now : Nat
  code : Bytes
  codeId : Nat
  newUserId : Nat
  jti : Bytes
  salt : Bytes
  signAccessErr : Option ApiError
  signRefreshErr : Option ApiError
deriving Repr

/-- An e-mail send call handed to the email collaborator. -/
inductive EmailMsg where
  | confirmation (toAddr first_name code : Bytes)
  | passwordReset (toAddr first_name code : Bytes)
deriving DecidableEq, Repr

/-- The body of a success response: HTTP status, message, and the user id
some responses carry. Cookie headers are transport plumbing the spec
places out of scope and are not modelled. -/
structure Resp where
  status : Nat
  message : Bytes
  user_id : Option Nat := none
deriving DecidableEq, Repr

/-- A handler's observable outcome: the typed result, the database state
after the request, and the e-mail send calls made. -/
structure HOut where
  result : Except ApiError Resp
  db : DB
  emails : List EmailMsg
deriving Repr

/-- Message of the sign-up success response. -/
def accountCreatedMsg : Bytes :=
  strBytes "Account created. Please check your email for a confirmation code."

/-- Message when the email was already confirmed. -/
def alreadyConfirmedMsg : Bytes := strBytes "Email already confirmed."

/-- Message of the confirm-email success response. -/
def emailConfirmedMsg : Bytes := strBytes "Email confirmed successfully."

/-- Message of the log-in success response. -/
def loggedInMsg : Bytes := strBytes "Logged in successfully."

/-- Message of the log-out success response. -/
def loggedOutMsg : Bytes := strBytes "Logged out successfully."

/-- The anti-enumeration forgot-password response message. -/
def forgotPasswordMsg : Bytes :=
  strBytes "If an account with this email exists, a password reset code has been sent."

/-- Message of the verify-forgot-password success response. -/
def codeVerifiedMsg : Bytes :=
  strBytes "Code verified. You can now set a new password."

/-- Message of the set-password success response. -/
def passwordUpdatedMsg : Bytes := strBytes "Password updated successfully."

namespace Handlers

/-- handlers.rs `sign_up`: reject a taken email, hash the password,
create the unconfirmed user, store an EmailConfirmation code and send it
(a send failure would be a hard error; the send is modelled as
succeeding). -/
def sign_up (env : Env) (o : Oracle) (db : DB)
    (first last email password : Bytes) : HOut :=
  if AuthRepo.check_email_exists db email then
    { result := .error .EmailAlreadyExists, db := db, emails := [] }
  else
    let hashed := hash_password password o.salt
    let created := AuthRepo.create_user db first last email hashed o.newUserId
    let db2 := AuthRepo.create_auth_code created.2 created.1 (hash_code o.code)
      AuthCodeType.EmailConfirmation (o.now + env.auth_code_expiry_seconds)
      o.codeId o.now
    let resp : Resp := { status := 201, message := accountCreatedMsg,
                         user_id := some created.1 }
    { result := .ok resp, db := db2,
      emails := [EmailMsg.confirmation email first o.code] }

/-- handlers.rs `confirm_email`: unknown email is `InvalidCredentials`;
an already confirmed user returns success idempotently; otherwise the
newest valid EmailConfirmation code is verified and, in one transaction,
marked used while the user is confirmed. -/
def confirm_email (_env : Env) (o : Oracle) (db : DB)
    (email auth_code : Bytes) : HOut :=
  match AuthRepo.find_user_for_confirmation db email with
  | none => { result := .error .InvalidCredentials, db := db, emails := [] }
  | some user =>
    if user.email_confirmed then
      { result := .ok { status := 200, message := alreadyConfirmedMsg },
        db := db, emails := [] }
    else
      match AuthRepo.find_valid_auth_code db user.id
          AuthCodeType.EmailConfirmation o.now with
      | none => { result := .error .AuthCodeExpired, db := db, emails := [] }
      | some ac =>
        if verify_code auth_code ac.code_hash = false then
          { result := .error .InvalidAuthCode, db := db, emails := [] }
        else
          { result := .ok { status := 200, message := emailConfirmedMsg },
            db := AuthRepo.confirm_user_email
              (AuthRepo.mark_auth_code_used db ac.id) user.id,
            emails := [] }

/-- handlers.rs `log_in`: user exists, password verifies, email is
confirmed — in that order — then a token pair is issued and the hashed
`jti` stored as a new active refresh session. -/
def log_in (env : Env) (o : Oracle) (db : DB) (email password : Bytes) :
    HOut :=
  match AuthRepo.find_user_for_login db email with
  | none => { result := .error .InvalidCredentials, db := db, emails := [] }
  | some user =>
    match verify_password password user.hashed_password with
    | .error e => { result := .error e, db := db, emails := [] }
    | .ok pwOk =>
      if !pwOk then
        { result := .error .InvalidCredentials, db := db, emails := [] }
      else if !user.email_confirmed then
        { result := .error .EmailNotConfirmed, db := db, emails := [] }
      else
        match Jwt.create_access_token user.id user.email env.jwt_secret
            env.jwt_access_token_expiry_seconds o.now o.signAccessErr with
        | .error e => { result := .error e, db := db, emails := [] }
        | .ok _ =>
          match Jwt.create_refresh_token user.id env.jwt_secret
              env.jwt_refresh_token_expiry_seconds o.now o.jti
              o.signRefreshErr with
          | .error e => { result := .error e, db := db, emails := [] }
          | .ok rt =>
            let db2 := AuthRepo.create_refresh_token db user.id
              (sha256_hex rt.2)
              (o.now + env.jwt_refresh_token_expiry_seconds)
            let resp : Resp := { status := 200, message := loggedInMsg,
                                 user_id := some user.id }
            { result := .ok resp, db := db2, emails := [] }

/-- handlers.rs `log_out`: best effort — if a refresh cookie is present
and decodes, its hashed `jti` is revoked; the handler always
succeeds. -/
def log_out (env : Env) (o : Oracle) (db : DB)
    (refresh_cookie : Option Jwt) : HOut :=
  let db2 := match refresh_cookie with
    | none => db
    | some tok =>
      match Jwt.decode_refresh_token tok env.jwt_secret o.now with
      | .error _ => db
      | .ok claims => AuthRepo.revoke_refresh_token db (sha256_hex claims.jti)
  { result := .ok { status := 200, message := loggedOutMsg },
    db := db2, emails := [] }

/-- handlers.rs `forgot_password`: the generic response is built first
and returned whether or not the email resolves; when it does, unused
PasswordReset codes are invalidated, a fresh code stored, and the reset
mail sent with its outcome discarded. -/
def forgot_password (env : Env) (o : Oracle) (db : DB) (email : Bytes) :
    HOut :=
  let resp : Resp := { status := 200, message := forgotPasswordMsg }
  match AuthRepo.find_user_for_password_reset db email with
  | none => { result := .ok resp, db := db, emails := [] }
  | some user =>
    let db1 := AuthRepo.invalidate_password_reset_codes db user.id
    let db2 := AuthRepo.create_auth_code db1 user.id (hash_code o.code)
      AuthCodeType.PasswordReset (o.now + env.auth_code_expiry_seconds)
      o.codeId o.now
    { result := .ok resp, db := db2,
      emails := [EmailMsg.passwordReset email user.first_name o.code] }

/-- handlers.rs `verify_forgot_password`: unknown email is
`InvalidCredentials`; the newest valid PasswordReset code is verified,
marked used by a standalone non-transactional update, and only then a
token pair is issued and a new refresh session stored. -/
def verify_forgot_password (env : Env) (o : Oracle) (db : DB)
    (email auth_code : Bytes) : HOut :=
  match AuthRepo.find_user_for_verification db email with
  | none => { result := .error .InvalidCredentials, db := db, emails := [] }
  | some user =>
    match AuthRepo.find_valid_auth_code db user.id
        AuthCodeType.PasswordReset o.now with
    | none => { result := .error .AuthCodeExpired, db := db, emails := [] }
    | some ac =>
      if verify_code auth_code ac.code_hash = false then
        { result := .error .InvalidAuthCode, db := db, emails := [] }
      else
        let db1 := AuthRepo.mark_auth_code_used_without_tx db ac.id
        match Jwt.create_access_token user.id user.email env.jwt_secret
            env.jwt_access_token_expiry_seconds o.now o.signAccessErr with
        | .error e => { result := .error e, db := db1, emails := [] }
        | .ok _ =>
          match Jwt.create_refresh_token user.id env.jwt_secret
              env.jwt_refresh_token_expiry_seconds o.now o.jti
              o.signRefreshErr with
          | .error e => { result := .error e, db := db1, emails := [] }
          | .ok rt =>
            let db2 := AuthRepo.create_refresh_token db1 user.id
              (sha256_hex rt.2)
              (o.now + env.jwt_refresh_token_expiry_seconds)
            { result := .ok { status := 200, message := codeVerifiedMsg },
              db := db2, emails := [] }

/-- handlers.rs `set_password`: requires the authenticated user (a valid
access token, extracted by the middleware into `user_id`/`user_email`)
plus a decodable refresh cookie for the same subject; inside one
transaction the presented session is atomically consumed (failure rolls
back and aborts with Unauthorized), the subject is re-checked against the
pool, the new password stored and every session revoked; after commit a
fresh token pair and session are created. -/
def set_password (env : Env) (o : Oracle) (db : DB) (user_id : Nat)
    (user_email : Bytes) (refresh_cookie : Option Jwt)
    (password : Bytes) : HOut :=
  match refresh_cookie with
  | none => { result := .error .Unauthorized, db := db, emails := [] }
  | some cookie =>
    match Jwt.decode_refresh_token cookie env.jwt_secret o.now with
    | .error e => { result := .error e, db := db, emails := [] }
    | .ok claims =>
      if claims.sub ≠ natToBytes user_id then
        { result := .error .Unauthorized, db := db, emails := [] }
      else
        let refresh_token_hash := sha256_hex claims.jti
        -- transaction begins; an abort before commit restores db
        let consumed := (AuthRepo.consume_active_refresh_token db user_id
          refresh_token_hash o.now).1
        let txdb := (AuthRepo.consume_active_refresh_token db user_id
          refresh_token_hash o.now).2
        if !consumed then
          { result := .error .Unauthorized, db := db, emails := [] }
        else if (AuthRepo.find_user_by_id db user_id).isNone then
          { result := .error .Unauthorized, db := db, emails := [] }
        else
          let hashed := hash_password password o.salt
          let txdb2 := AuthRepo.revoke_all_user_refresh_tokens
            (AuthRepo.update_user_password txdb user_id hashed) user_id
          -- commit
          match Jwt.create_access_token user_id user_email env.jwt_secret
              env.jwt_access_token_expiry_seconds o.now o.signAccessErr with
          | .error e => { result := .error e, db := txdb2, emails := [] }
          | .ok _ =>
            match Jwt.create_refresh_token user_id env.jwt_secret
                env.jwt_refresh_token_expiry_seconds o.now o.jti
                o.signRefreshErr with
            | .error e => { result := .error e, db := txdb2, emails := [] }
            | .ok rt =>
              let db2 := AuthRepo.create_refresh_token txdb2 user_id
                (sha256_hex rt.2)
                (o.now + env.jwt_refresh_token_expiry_seconds)
              { result := .ok { status := 200,
                                message := passwordUpdatedMsg },
                db := db2, emails := [] }

end Handlers

/-- C6. Log-in checks user existence, password, and confirmation in that
order: unknown email and wrong password both fail with
`InvalidCredentials`, while a correct password on an unconfirmed account
fails with `EmailNotConfirmed`; none of the failures touches state. -/
theorem log_in_check_order (env : Env) (o : Oracle) (db : DB)
    (email password : Bytes) :
    (AuthRepo.find_user_for_login db email = none →
      Handlers.log_in env o db email password =
        { result := .error .InvalidCredentials, db := db, emails := [] }) ∧
    (∀ u : UserRec, AuthRepo.find_user_for_login db email = some u →
      verify_password password u.hashed_password = .ok false →
      Handlers.log_in env o db email password =
        { result := .error .InvalidCredentials, db := db, emails := [] }) ∧
    (∀ u : UserRec, AuthRepo.find_user_for_login db email = some u →
      verify_password password u.hashed_password = .ok true →
      u.email_confirmed = false →
      Handlers.log_in env o db email password =
        { result := .error .EmailNotConfirmed, db := db, emails := [] }) := by
  refine ⟨?_, ?_, ?_⟩
  · intro hnone
    simp [Handlers.log_in, hnone]
  · intro u hu hpw
    simp [Handlers.log_in, hu, hpw]
  · intro u hu hpw hconf
    simp [Handlers.log_in, hu, hpw, hconf]

/-- C6 witness: the sample user rejects a wrong password with
`InvalidCredentials`. -/
theorem log_in_check_order_witness :
    Handlers.log_in ⟨[107], 900, 604800, 600⟩
        ⟨0, [55], 9, 1, [106], [5], none, none⟩ wDb [101] [113] =
      { result := .error .InvalidCredentials, db := wDb, emails := [] } :=
  (log_in_check_order ⟨[107], 900, 604800, 600⟩
      ⟨0, [55], 9, 1, [106], [5], none, none⟩ wDb [101] [113]).2.1
    wUser (by rfl) (by rfl)

/-- C10. A request against an unregistered email makes confirm-email and
verify-forgot-password fail with `InvalidCredentials` with no state
change, whatever codes are stored; by contrast a registered email can
never produce `InvalidCredentials` from these two endpoints, while
forgot-password answers with its fixed success response either way. -/
theorem unknown_email_distinct_rejection (env : Env) (o : Oracle) (db : DB)
    (email code : Bytes)
    (hnone : AuthRepo.find_user_by_email db email = none)
    (ha : o.signAccessErr = none) (hr : o.signRefreshErr = none) :
    Handlers.confirm_email env o db email code =
      { result := .error .InvalidCredentials, db := db, emails := [] } ∧
    Handlers.verify_forgot_password env o db email code =
      { result := .error .InvalidCredentials, db := db, emails := [] } ∧
    (∀ (db2 : DB) (u : UserRec),
      AuthRepo.find_user_by_email db2 email = some u →
      (Handlers.confirm_email env o db2 email code).result ≠
        .error .InvalidCredentials) ∧
    (∀ (db2 : DB) (u : UserRec),
      AuthRepo.find_user_by_email db2 email = some u →
      (Handlers.verify_forgot_password env o db2 email code).result ≠
        .error .InvalidCredentials) ∧
    (Handlers.forgot_password env o db email).result =
      .ok { status := 200, message := forgotPasswordMsg } := by
  refine ⟨?_, ?_, ?_, ?_, ?_⟩
  · simp [Handlers.confirm_email, AuthRepo.find_user_for_confirmation, hnone]
  · simp [Handlers.verify_forgot_password,
      AuthRepo.find_user_for_verification, hnone]
  · intro db2 u hu
    simp only [Handlers.confirm_email, AuthRepo.find_user_for_confirmation,
      hu]
    repeat' split
    all_goals simp
  · intro db2 u hu
    simp only [Handlers.verify_forgot_password,
      AuthRepo.find_user_for_verification, hu, ha, hr,
      Jwt.create_access_token, Jwt.create_refresh_token]
    repeat' split
    all_goals simp
  · cases hfind : AuthRepo.find_user_for_password_reset db email <;>
      simp [Handlers.forgot_password, hfind]

/-- C10 witness: the unknown email consisting of the single byte 120 on
the sample database. -/
theorem unknown_email_distinct_rejection_witness :
    Handlers.confirm_email ⟨[107], 900, 604800, 600⟩
        ⟨0, [55], 9, 1, [106], [5], none, none⟩ wDb [120] [55] =
      { result := .error .InvalidCredentials, db := wDb, emails := [] } ∧
    Handlers.verify_forgot_password ⟨[107], 900, 604800, 600⟩
        ⟨0, [55], 9, 1, [106], [5], none, none⟩ wDb [120] [55] =
      { result := .error .InvalidCredentials, db := wDb, emails := [] } :=
  have h := unknown_email_distinct_rejection ⟨[107], 900, 604800, 600⟩
    ⟨0, [55], 9, 1, [106], [5], none, none⟩ wDb [120] [55]
    (by rfl) (by rfl) (by rfl)
  ⟨h.1, h.2.1⟩

/-- C3. Forgot-password answers with the identical status and message
whether or not the email resolves; on an unknown email the state is
untouched and no mail is sent; on a known email the outstanding
PasswordReset codes end up used, exactly one fresh unused code row is
appended, and exactly one reset mail is sent. -/
theorem forgot_password_antienumeration (env : Env) (o : Oracle) (db : DB)
    (email : Bytes) :
    ((Handlers.forgot_password env o db email).result =
      .ok { status := 200, message := forgotPasswordMsg }) ∧
    (AuthRepo.find_user_for_password_reset db email = none →
      Handlers.forgot_password env o db email =
        { result := .ok { status := 200, message := forgotPasswordMsg },
          db := db, emails := [] }) ∧
    (∀ u : UserRec, AuthRepo.find_user_for_password_reset db email = some u →
      (Handlers.forgot_password env o db email).emails =
        [EmailMsg.passwordReset email u.first_name o.code] ∧
      (Handlers.forgot_password env o db email).db.users = db.users ∧
      (Handlers.forgot_password env o db email).db.refresh_tokens =
        db.refresh_tokens ∧
      (∀ (i : Nat) (c : AuthCodeRec), db.auth_codes[i]? = some c →
        c.user_id = u.id → c.code_type = AuthCodeType.PasswordReset →
        ∃ c2 : AuthCodeRec,
          (Handlers.forgot_password env o db email).db.auth_codes[i]? =
            some c2 ∧ c2.used = true) ∧
      ((Handlers.forgot_password env o db email).db.auth_codes[db.auth_codes.length]? =
        some { id := o.codeId, user_id := u.id, code_hash := hash_code o.code,
               code_type := AuthCodeType.PasswordReset,
               expires_at := o.now + env.auth_code_expiry_seconds,
               used := false, created_at := o.now })) := by
  refine ⟨?_, ?_, ?_⟩
  · cases hfind : AuthRepo.find_user_for_password_reset db email <;>
      simp [Handlers.forgot_password, hfind]
  · intro hnone
    simp [Handlers.forgot_password, hnone]
  · intro u hu
    refine ⟨?_, ?_, ?_, ?_, ?_⟩
    · simp [Handlers.forgot_password, hu]
    · simp [Handlers.forgot_password, hu, AuthRepo.create_auth_code,
        AuthRepo.invalidate_password_reset_codes]
    · simp [Handlers.forgot_password, hu, AuthRepo.create_auth_code,
        AuthRepo.invalidate_password_reset_codes]
    · intro i c hget huid htype
      have hi : i < db.auth_codes.length := (List.getElem?_eq_some.mp hget).1
      simp only [Handlers.forgot_password, hu, AuthRepo.create_auth_code,
        AuthRepo.invalidate_password_reset_codes]
      rw [List.getElem?_append_left (by simpa using hi), List.getElem?_map,
        hget]
      by_cases hused : c.used
      · refine ⟨c, ?_, hused⟩
        simp [huid, htype, hused]
      · have hused2 : c.used = false := by
          cases hq : c.used
          · rfl
          · exact absurd hq hused
        refine ⟨{ c with used := true }, ?_, rfl⟩
        simp [huid, htype, hused2]
    · simp only [Handlers.forgot_password, hu, AuthRepo.create_auth_code,
        AuthRepo.invalidate_password_reset_codes]
      have hlen : (db.auth_codes.map (fun c =>
          if c.user_id == u.id &&
              c.code_type == AuthCodeType.PasswordReset && c.used == false
          then { c with used := true } else c)).length =
          db.auth_codes.length := by simp
      rw [← hlen]
      exact List.getElem?_concat_length _ _

/-- C3 witness: the sample user's stored reset code is invalidated, a
fresh one appended, and one reset mail sent, while the response equals
the unknown-email response. -/
theorem forgot_password_antienumeration_witness :
    ((Handlers.forgot_password ⟨[107], 900, 604800, 600⟩
        ⟨0, [56], 12, 1, [106], [5], none, none⟩ wDb [101]).emails =
      [EmailMsg.passwordReset [101] [102] [56]]) ∧
    ((Handlers.forgot_password ⟨[107], 900, 604800, 600⟩
        ⟨0, [56], 12, 1, [106], [5], none, none⟩ wDb [101]).db.auth_codes[1]? =
      some { id := 12, user_id := 1, code_hash := hash_code [56],
             code_type := AuthCodeType.PasswordReset, expires_at := 600,
             used := false, created_at := 0 }) :=
  have h := (forgot_password_antienumeration ⟨[107], 900, 604800, 600⟩
    ⟨0, [56], 12, 1, [106], [5], none, none⟩ wDb [101]).2.2 wUser (by rfl)
  ⟨h.1, h.2.2.2.2⟩

/-- After revoking a token hash, no session with that hash can be
consumed. -/
theorem consume_after_revoke (db : DB) (uid : Nat) (h : Bytes) (now : Nat) :
    (AuthRepo.consume_active_refresh_token
      (AuthRepo.revoke_refresh_token db h) uid h now).1 = false := by
  simp only [AuthRepo.consume_active_refresh_token,
    AuthRepo.revoke_refresh_token, List.any_map, List.any_eq_false,
    Function.comp_apply, Bool.not_eq_true]
  intro r _
  by_cases hh : r.token_hash == h
  · simp [hh, AuthRepo.activeMatch]
  · have hh2 : (r.token_hash == h) = false := by
      cases hq : r.token_hash == h
      · rfl
      · exact absurd hq hh
    simp [hh2, AuthRepo.activeMatch]

/-- Common core of C1: whenever the presented session cannot be
atomically consumed, set-password aborts with Unauthorized and the
transaction rollback leaves the database exactly as it was. -/
theorem set_password_abort_aux (env : Env) (o : Oracle) (db : DB)
    (user_id : Nat) (user_email : Bytes) (cookie : Jwt) (password : Bytes)
    (claims : RefreshTokenClaims)
    (hdec : Jwt.decode_refresh_token cookie env.jwt_secret o.now = .ok claims)
    (hsub : claims.sub = natToBytes user_id)
    (hcons : (AuthRepo.consume_active_refresh_token db user_id
      (sha256_hex claims.jti) o.now).1 = false) :
    Handlers.set_password env o db user_id user_email (some cookie) password =
      { result := .error .Unauthorized, db := db, emails := [] } := by
  simp [Handlers.set_password, hdec, hsub, hcons]

/-- C1. If the presented refresh session of a set-password request (valid
access token, decodable refresh token for the same subject) cannot be
atomically consumed, the request fails with Unauthorized and the state —
password hashes, refresh-token rows, auth codes — is exactly unchanged;
in particular after a log-out on that session, a set-password with the
same session always aborts this way. -/
theorem set_password_consume_failure_aborts (env : Env) (o : Oracle)
    (db : DB) (user_id : Nat) (user_email : Bytes) (cookie : Jwt)
    (password : Bytes) (claims : RefreshTokenClaims)
    (hdec : Jwt.decode_refresh_token cookie env.jwt_secret o.now = .ok claims)
    (hsub : claims.sub = natToBytes user_id) :
    ((AuthRepo.consume_active_refresh_token db user_id
        (sha256_hex claims.jti) o.now).1 = false →
      Handlers.set_password env o db user_id user_email (some cookie)
          password =
        { result := .error .Unauthorized, db := db, emails := [] }) ∧
    (Handlers.set_password env o (Handlers.log_out env o db (some cookie)).db
        user_id user_email (some cookie) password =
      { result := .error .Unauthorized,
        db := (Handlers.log_out env o db (some cookie)).db,
        emails := [] }) := by
  constructor
  · intro hcons
    exact set_password_abort_aux env o db user_id user_email cookie password
      claims hdec hsub hcons
  · have hlo : (Handlers.log_out env o db (some cookie)).db =
        AuthRepo.revoke_refresh_token db (sha256_hex claims.jti) := by
      simp [Handlers.log_out, hdec]
    rw [hlo]
    exact set_password_abort_aux env o
      (AuthRepo.revoke_refresh_token db (sha256_hex claims.jti)) user_id
      user_email cookie password claims hdec hsub
      (consume_after_revoke db user_id (sha256_hex claims.jti) o.now)

/-- Refresh cookie used by the concrete C1 witness: subject is user 1 of
the sample database, the jti is the byte string whose model hash is the
one stored in the sample session row, and the cookie is signed with the
sample secret. -/
def wRefreshCookie : Jwt :=
  { payload := { sub := natToBytes 1, email := none, exp := 50, iat := 0,
                 token_type := refreshType, jti := some [97] },
    key := [107] }

/-- C1 witness: on the sample database, logging the session out and then
presenting it to set-password yields Unauthorized and leaves the
post-logout state untouched. -/
theorem set_password_consume_failure_aborts_witness :
    Handlers.set_password ⟨[107], 900, 604800, 600⟩
        ⟨0, [55], 9, 1, [106], [5], none, none⟩
        (Handlers.log_out ⟨[107], 900, 604800, 600⟩
          ⟨0, [55], 9, 1, [106], [5], none, none⟩ wDb
          (some wRefreshCookie)).db
        1 [101] (some wRefreshCookie) [112] =
      { result := .error .Unauthorized,
        db := (Handlers.log_out ⟨[107], 900, 604800, 600⟩
          ⟨0, [55], 9, 1, [106], [5], none, none⟩ wDb
          (some wRefreshCookie)).db,
        emails := [] } :=
  (set_password_consume_failure_aborts ⟨[107], 900, 604800, 600⟩
      ⟨0, [55], 9, 1, [106], [5], none, none⟩ wDb 1 [101] wRefreshCookie
      [112] { sub := natToBytes 1, exp := 50, iat := 0,
              token_type := refreshType, jti := [97] }
      (by rfl) (by rfl)).2

/-- Every refresh-token row that is revoked in the first state is still
present, at the same position, and still revoked in the second state.
Positions are preserved because every operation either updates rows in
place or appends new ones. -/
def RevokedPreserved (db db2 : DB) : Prop :=
  ∀ (i : Nat) (r : RefreshTokenRec), db.refresh_tokens[i]? = some r →
    r.revoked = true →
    ∃ r2 : RefreshTokenRec, db2.refresh_tokens[i]? = some r2 ∧
      r2.revoked = true

/-- A state with the same refresh-token table preserves revocation. -/
theorem rp_of_eq {db db2 : DB}
    (h : db2.refresh_tokens = db.refresh_tokens) :
    RevokedPreserved db db2 :=
  fun _i r hg hr => ⟨r, h ▸ hg, hr⟩

/-- Revocation preservation is reflexive. -/
theorem rp_refl (db : DB) : RevokedPreserved db db := rp_of_eq rfl

/-- Revocation preservation composes. -/
theorem rp_trans {a b c : DB} (h1 : RevokedPreserved a b)
    (h2 : RevokedPreserved b c) : RevokedPreserved a c := by
  intro i r hg hr
  obtain ⟨r2, hg2, hr2⟩ := h1 i r hg hr
  exact h2 i r2 hg2 hr2

/-- An in-place update that keeps revoked rows revoked preserves
revocation. -/
theorem rp_map {db : DB} (f : RefreshTokenRec → RefreshTokenRec)
    (hf : ∀ r, r.revoked = true → (f r).revoked = true) :
    RevokedPreserved db
      { db with refresh_tokens := db.refresh_tokens.map f } := by
  intro i r hg hr
  refine ⟨f r, ?_, hf r hr⟩
  simp [List.getElem?_map, hg]

/-- The conditional revoke-update pattern shared by `revoke`, `revokeAll`
and `consumeActive` preserves revocation. -/
theorem rp_ite_revoke {db : DB} (p : RefreshTokenRec → Bool) :
    RevokedPreserved db
      { db with refresh_tokens := db.refresh_tokens.map
                  (fun r => if p r then { r with revoked := true } else r) } := by
  apply rp_map
  intro r hr
  by_cases hp : p r <;> simp [hp, hr]

/-- Appending new rows preserves revocation. -/
theorem rp_append {db : DB} (l : List RefreshTokenRec) :
    RevokedPreserved db
      { db with refresh_tokens := db.refresh_tokens ++ l } := by
  intro i r hg hr
  refine ⟨r, ?_, hr⟩
  have hi : i < db.refresh_tokens.length := (List.getElem?_eq_some.mp hg).1
  rw [List.getElem?_append_left hi]
  exact hg

/-- Inserting a refresh-token row preserves revocation. -/
theorem rp_create (db : DB) (uid : Nat) (h : Bytes) (e : Nat) :
    RevokedPreserved db (AuthRepo.create_refresh_token db uid h e) :=
  rp_append _

/-- Revoking one session preserves revocation. -/
theorem rp_revoke (db : DB) (h : Bytes) :
    RevokedPreserved db (AuthRepo.revoke_refresh_token db h) :=
  rp_ite_revoke _

/-- Revoking all of a user's sessions preserves revocation. -/
theorem rp_revoke_all (db : DB) (uid : Nat) :
    RevokedPreserved db (AuthRepo.revoke_all_user_refresh_tokens db uid) :=
  rp_ite_revoke _

/-- Consuming a session preserves revocation. -/
theorem rp_consume (db : DB) (uid : Nat) (h : Bytes) (now : Nat) :
    RevokedPreserved db
      (AuthRepo.consume_active_refresh_token db uid h now).2 :=
  rp_ite_revoke _

/-- C5. Once a refresh-token row is revoked, no operation of the
subsystem — the row insert, single revoke, revoke-all and atomic consume
primitives, nor any auth flow composed of them — ever makes it active
again: every update of the revoked column only sets it to true and new
rows are only appended. -/
theorem refresh_revocation_terminal (env : Env) (o : Oracle) (db : DB) :
    (∀ (uid : Nat) (h : Bytes) (exp : Nat),
      RevokedPreserved db (AuthRepo.create_refresh_token db uid h exp)) ∧
    (∀ h : Bytes, RevokedPreserved db (AuthRepo.revoke_refresh_token db h)) ∧
    (∀ uid : Nat,
      RevokedPreserved db (AuthRepo.revoke_all_user_refresh_tokens db uid)) ∧
    (∀ (uid : Nat) (h : Bytes) (now : Nat),
      RevokedPreserved db
        (AuthRepo.consume_active_refresh_token db uid h now).2) ∧
    (∀ f l e p : Bytes,
      RevokedPreserved db (Handlers.sign_up env o db f l e p).db) ∧
    (∀ e c : Bytes,
      RevokedPreserved db (Handlers.confirm_email env o db e c).db) ∧
    (∀ e p : Bytes,
      RevokedPreserved db (Handlers.log_in env o db e p).db) ∧
    (∀ tok : Option Jwt,
      RevokedPreserved db (Handlers.log_out env o db tok).db) ∧
    (∀ e : Bytes,
      RevokedPreserved db (Handlers.forgot_password env o db e).db) ∧
    (∀ e c : Bytes,
      RevokedPreserved db (Handlers.verify_forgot_password env o db e c).db) ∧
    (∀ (uid : Nat) (ue : Bytes) (tok : Option Jwt) (p : Bytes),
      RevokedPreserved db (Handlers.set_password env o db uid ue tok p).db) := by
  refine ⟨?_, ?_, ?_, ?_, ?_, ?_, ?_, ?_, ?_, ?_, ?_⟩
  · intro uid h exp
    exact rp_create db uid h exp
  · intro h
    exact rp_revoke db h
  · intro uid
    exact rp_revoke_all db uid
  · intro uid h now
    exact rp_consume db uid h now
  · intro f l e p
    unfold Handlers.sign_up
    split
    · exact rp_refl db
    · exact rp_of_eq rfl
  · intro e c
    unfold Handlers.confirm_email
    repeat' split
    all_goals exact rp_of_eq rfl
  · intro e p
    unfold Handlers.log_in
    repeat' split
    all_goals dsimp only
    all_goals first
      | exact rp_of_eq rfl
      | exact rp_create db _ _ _
  · intro tok
    unfold Handlers.log_out
    repeat' split
    all_goals dsimp only
    all_goals first
      | exact rp_of_eq rfl
      | exact rp_revoke db _
  · intro e
    unfold Handlers.forgot_password
    repeat' split
    all_goals exact rp_of_eq rfl
  · intro e c
    unfold Handlers.verify_forgot_password
    repeat' split
    all_goals dsimp only
    all_goals first
      | exact rp_of_eq rfl
      | exact rp_create _ _ _ _
  · intro uid ue tok p
    unfold Handlers.set_password
    repeat' split
    all_goals dsimp only
    all_goals repeat' split
    all_goals first
      | exact rp_refl db
      | exact rp_of_eq rfl
      | exact rp_trans (rp_trans (rp_consume db uid _ o.now)
          (rp_of_eq rfl)) (rp_revoke_all _ uid)
      | exact rp_trans (rp_trans (rp_trans (rp_consume db uid _ o.now)
          (rp_of_eq rfl)) (rp_revoke_all _ uid)) (rp_create _ _ _ _)

/-- The sample session row, already revoked. -/
def wRecRevoked : RefreshTokenRec := { wRec with revoked := true }

/-- The sample database with its session row already revoked. -/
def wDbRevoked : DB :=
  { users := [wUser], auth_codes := [wCode],
    refresh_tokens := [wRecRevoked] }

/-- C5 witness: the sample database with its session row revoked keeps
that row revoked across a log-in. -/
theorem refresh_revocation_terminal_witness :
    ∃ r2 : RefreshTokenRec,
      (Handlers.log_in ⟨[107], 900, 604800, 600⟩
        ⟨0, [55], 9, 1, [106], [5], none, none⟩ wDbRevoked
        [101] [5, 36, 112]).db.refresh_tokens[0]? = some r2 ∧
      r2.revoked = true :=
  ((refresh_revocation_terminal ⟨[107], 900, 604800, 600⟩
      ⟨0, [55], 9, 1, [106], [5], none, none⟩ wDbRevoked).2.2.2.2.2.2.1
    [101] [5, 36, 112]) 0 wRecRevoked (by rfl) (by rfl)

/-- Verifying a code against a stored digest succeeds exactly when the
code hashes to that digest. -/
theorem verify_code_eq_true_iff (code stored : Bytes) :
    verify_code code stored = true ↔ hash_code code = stored :=
  constant_time_compare_eq_true_iff _ _

/-- The maximum-by-created-at fold yields its accumulator or a list
element. -/
theorem foldl_pick_mem (l : List AuthCodeRec) :
    ∀ (acc : Option AuthCodeRec) (r : AuthCodeRec),
    l.foldl (fun best c => match best with
      | none => some c
      | some b => if b.created_at < c.created_at then some c else some b)
      acc = some r →
    acc = some r ∨ r ∈ l := by
  induction l with
  | nil => intro acc r h; exact Or.inl h
  | cons c l ih =>
    intro acc r h
    rcases ih _ r h with hacc | hmem
    · cases acc with
      | none =>
        simp only at hacc
        have : c = r := by
          cases hacc
          rfl
        exact Or.inr (this ▸ List.mem_cons_self c l)
      | some b =>
        simp only at hacc
        split at hacc
        · exact Or.inr (by
            cases hacc
            exact List.mem_cons_self c l)
        · exact Or.inl hacc
    · exact Or.inr (List.mem_cons_of_mem c hmem)

/-- A row returned by `find_valid_auth_code` is a stored row satisfying
the validity filter. -/
theorem find_valid_auth_code_some (db : DB) (uid : Nat)
    (ct : AuthCodeType) (now : Nat) (r : AuthCodeRec)
    (h : AuthRepo.find_valid_auth_code db uid ct now = some r) :
    r ∈ db.auth_codes ∧ r.user_id = uid ∧ r.code_type = ct ∧
      r.used = false ∧ now < r.expires_at := by
  unfold AuthRepo.find_valid_auth_code at h
  rcases foldl_pick_mem _ _ _ h with hacc | hmem
  · cases hacc
  · have hmem2 := List.mem_filter.mp hmem
    have hval := hmem2.2
    simp only [AuthRepo.validCode, Bool.and_eq_true, beq_iff_eq,
      decide_eq_true_eq] at hval
    exact ⟨hmem2.1, hval.1.1.1, hval.1.1.2, hval.1.2, hval.2⟩

/-- C9. In verify-forgot-password the reset code is burned by a
standalone non-transactional update before tokens are minted: if the
external signer fails afterwards, the request returns an error, no
refresh-token row is created, the code row is left marked used, and a
retry of the same code against the resulting state fails with
`AuthCodeExpired` or `InvalidAuthCode`. -/
theorem verify_forgot_password_burns_code (env : Env) (o : Oracle)
    (db : DB) (email code : Bytes) (u : UserRec) (ac : AuthCodeRec)
    (hu : AuthRepo.find_user_for_verification db email = some u)
    (hac : AuthRepo.find_valid_auth_code db u.id AuthCodeType.PasswordReset
      o.now = some ac)
    (hv : verify_code code ac.code_hash = true)
    (huniq : ∀ c ∈ db.auth_codes, c.user_id = u.id →
      c.code_type = AuthCodeType.PasswordReset →
      c.code_hash = ac.code_hash → c.id = ac.id)
    (hfail : (∃ e, o.signAccessErr = some e) ∨
      (o.signAccessErr = none ∧ ∃ e, o.signRefreshErr = some e)) :
    (∃ e, (Handlers.verify_forgot_password env o db email code).result =
      .error e) ∧
    (∀ (i : Nat) (c : AuthCodeRec), db.auth_codes[i]? = some c →
      c.id = ac.id →
      ∃ c2 : AuthCodeRec,
        (Handlers.verify_forgot_password env o db email code).db.auth_codes[i]?
          = some c2 ∧ c2.used = true) ∧
    ((Handlers.verify_forgot_password env o db email code).db.refresh_tokens
      = db.refresh_tokens) ∧
    (∀ o2 : Oracle, o2.now = o.now →
      ∃ e2, (Handlers.verify_forgot_password env o2
          (Handlers.verify_forgot_password env o db email code).db email
          code).result = .error e2 ∧
        (e2 = ApiError.AuthCodeExpired ∨ e2 = ApiError.InvalidAuthCode)) := by
  have hout : ∃ e, Handlers.verify_forgot_password env o db email code =
      { result := .error e,
        db := AuthRepo.mark_auth_code_used_without_tx db ac.id,
        emails := [] } := by
    rcases hfail with ⟨e, he⟩ | ⟨hnone, e, he⟩
    · exact ⟨e, by
        simp [Handlers.verify_forgot_password, hu, hac, hv, he,
          Jwt.create_access_token]⟩
    · exact ⟨e, by
        simp [Handlers.verify_forgot_password, hu, hac, hv, hnone, he,
          Jwt.create_access_token, Jwt.create_refresh_token]⟩
  obtain ⟨e, hout⟩ := hout
  refine ⟨⟨e, by rw [hout]⟩, ?_, ?_, ?_⟩
  · intro i c hget hid
    rw [hout]
    refine ⟨{ c with used := true }, ?_, rfl⟩
    simp only [AuthRepo.mark_auth_code_used_without_tx,
      AuthRepo.mark_auth_code_used]
    rw [List.getElem?_map, hget]
    simp [hid]
  · rw [hout]
    rfl
  · intro o2 ho2
    rw [hout]
    have hu2 : AuthRepo.find_user_for_verification
        (AuthRepo.mark_auth_code_used_without_tx db ac.id) email = some u :=
      hu
    cases hfind2 : AuthRepo.find_valid_auth_code
        (AuthRepo.mark_auth_code_used_without_tx db ac.id) u.id
        AuthCodeType.PasswordReset o2.now with
    | none =>
      refine ⟨ApiError.AuthCodeExpired, ?_, Or.inl rfl⟩
      simp [Handlers.verify_forgot_password, hu2, hfind2]
    | some ac2 =>
      have hprops := find_valid_auth_code_some _ _ _ _ _ hfind2
      have hv2 : verify_code code ac2.code_hash = false := by
        cases hq : verify_code code ac2.code_hash with
        | false => rfl
        | true =>
          exfalso
          have hhash2 : hash_code code = ac2.code_hash :=
            (verify_code_eq_true_iff _ _).mp hq
          have hhash : hash_code code = ac.code_hash :=
            (verify_code_eq_true_iff _ _).mp hv
          have hmem := hprops.1
          simp only [AuthRepo.mark_auth_code_used_without_tx,
            AuthRepo.mark_auth_code_used, List.mem_map] at hmem
          obtain ⟨c, hcmem, hceq⟩ := hmem
          by_cases hcid : c.id = ac.id
          · have : ac2.used = true := by
              rw [← hceq]
              simp [hcid]
            rw [hprops.2.2.2.1] at this
            cases this
          · have hbeq : (c.id == ac.id) = false := by
              cases hq2 : c.id == ac.id
              · rfl
              · exact absurd (by simpa using hq2) hcid
            have hc2 : ac2 = c := by rw [← hceq]; simp [hbeq]
            have : c.id = ac.id := by
              refine huniq c hcmem ?_ ?_ ?_
              · rw [← hc2]; exact hprops.2.1
              · rw [← hc2]; exact hprops.2.2.1
              · rw [← hc2]; rw [← hhash2, hhash]
            exact absurd this hcid
      refine ⟨ApiError.InvalidAuthCode, ?_, Or.inr rfl⟩
      simp [Handlers.verify_forgot_password, hu2, hfind2, hv2]

/-- C9 witness: on the sample database with an access-signer failure
injected, the request errors, the reset code row is burned, no session
row appears, and a retry fails. -/
theorem verify_forgot_password_burns_code_witness :
    (∃ e, (Handlers.verify_forgot_password ⟨[107], 900, 604800, 600⟩
      ⟨0, [55], 13, 1, [106], [5], some ApiError.InternalError, none⟩
      wDb [101] [55]).result = .error e) ∧
    (∃ e2, (Handlers.verify_forgot_password ⟨[107], 900, 604800, 600⟩
        ⟨0, [55], 13, 1, [106], [5], some ApiError.InternalError, none⟩
        (Handlers.verify_forgot_password ⟨[107], 900, 604800, 600⟩
          ⟨0, [55], 13, 1, [106], [5], some ApiError.InternalError, none⟩
          wDb [101] [55]).db [101] [55]).result = .error e2 ∧
      (e2 = ApiError.AuthCodeExpired ∨ e2 = ApiError.InvalidAuthCode)) :=
  have h := verify_forgot_password_burns_code ⟨[107], 900, 604800, 600⟩
    ⟨0, [55], 13, 1, [106], [5], some ApiError.InternalError, none⟩
    wDb [101] [55] wUser wCode (by rfl) (by rfl) (by decide) (by decide)
    (Or.inl ⟨ApiError.InternalError, rfl⟩)
  ⟨h.1, h.2.2.2 ⟨0, [55], 13, 1, [106], [5], some ApiError.InternalError,
    none⟩ rfl⟩

end GigLog
